import Mathlib

/-!
Verification development for the personalweb-next repository.

Shallow embedding of the two pieces of logic the specification covers:

* the client contact form component (src/components/ContactSection.tsx):
  its draft record, submission status machine, submit and change handlers,
  and the disabled submit control;
* the active-section coordination (src/app/page.tsx useState plus the
  IntersectionObserver callbacks of the sections and the LeftNav
  scrollToSection action in src/components/LeftNav.tsx);
* the contact relay endpoint (src/app/api/contact/route.ts POST handler).

Effectful JavaScript is modelled by explicit state passing; the fetch call
and the email provider call are parameters describing their outcome.
-/

namespace PersonalWeb

/-- Submission status of the contact form, the useState union in
ContactSection.tsx line 44: "idle" | "loading" | "success" | "error".
The spec names these idle, sending, succeeded, failed. -/
inductive Status where
  | idle
  | loading
  | success
  | error
deriving DecidableEq, Repr

/-- The Contact Form Draft: the three controlled text fields of the form
(ContactSection.tsx lines 38-42). -/
structure FormData where
  name : String
  email : String
  message : String
deriving DecidableEq, Repr

/-- Local state of the ContactSection component: draft, status, and the
optional feedback string (ContactSection.tsx lines 38-47). -/
structure ContactState where
  formData : FormData
  status : Status
  feedbackMessage : Option String
deriving DecidableEq, Repr

/-- Initial component state: empty draft, idle, no feedback. -/
def initialContactState : ContactState :=
  { formData := { name := "", email := "", message := "" },
    status := Status.idle, feedbackMessage := none }

/-- Shape of the JSON object the client reads from a response body: an object
possibly carrying an ok field and an error field. -/
structure ResponseJson where
  ok : Option Bool
  error : Option String
deriving DecidableEq, Repr

/-- An HTTP response as the client sees it: the numeric status plus the result
of parsing its body as JSON; none models a body on which response.json()
rejects (the code turns that into null via .catch). -/
structure HttpResponse where
  status : Nat
  body : Option ResponseJson
deriving DecidableEq, Repr

/-- The Response.ok flag of the fetch API: status in the range 200-299. -/
def HttpResponse.ok (r : HttpResponse) : Bool :=
  decide (200 ≤ r.status) && decide (r.status < 300)

/-- A JavaScript value thrown while fetching: whether it is an Error instance,
and its message property. A browser rejects a fetch to an unreachable host
with a TypeError, which is an Error instance, whose message is
transport-level text such as "Failed to fetch". -/
structure JsThrown where
  isError : Bool
  message : String
deriving DecidableEq, Repr

/-- Outcome of the awaited fetch in handleSubmit: either a response arrived or
the promise rejected with a thrown value. -/
inductive FetchOutcome where
  | resp (r : HttpResponse)
  | thrown (e : JsThrown)
deriving DecidableEq, Repr

/-- Success feedback string set by the component (ContactSection.tsx line 98).
Its apostrophe is the right single quotation mark U+2019. -/
def thanksMessage : String := "Thanks for reaching out! I’ll respond shortly."

/-- Fallback feedback used when the caught value is not an Error instance
(ContactSection.tsx line 105). -/
def genericFailureMessage : String := "Something went wrong. Please try again."

/-- Default message thrown when a non-ok response carries no error field
(ContactSection.tsx line 94). -/
def defaultSendFailureMessage : String := "Failed to send your message."

/-- First half of handleSubmit (ContactSection.tsx lines 77-79): set status to
loading and clear the feedback message. The draft is untouched here. -/
def beginSubmit (s : ContactState) : ContactState :=
  { s with status := Status.loading, feedbackMessage := none }

/-- Second half of handleSubmit (ContactSection.tsx lines 81-107): react to the
fetch outcome. On an ok response: status success, thanks feedback, draft
cleared. On a non-ok response the code throws an Error whose message is the
error field of the parsed body, or the default when the body is unparseable or
has no error field; the catch block then shows that message. On a thrown
value: status error, and the feedback is the message of the value when it is
an Error instance, otherwise the generic fallback; the draft is preserved. -/
def resolveSubmit (outcome : FetchOutcome) (s : ContactState) : ContactState :=
  match outcome with
  | FetchOutcome.resp r =>
      if r.ok then
        { s with status := Status.success,
                 feedbackMessage := some thanksMessage,
                 formData := { name := "", email := "", message := "" } }
      else
        { s with status := Status.error,
                 feedbackMessage :=
                   some ((r.body.bind ResponseJson.error).getD defaultSendFailureMessage) }
  | FetchOutcome.thrown e =>
      { s with status := Status.error,
               feedbackMessage :=
                 some (if e.isError then e.message else genericFailureMessage) }

/-- handleSubmit (ContactSection.tsx lines 76-108) with the fetch outcome
supplied as a parameter. -/
def handleSubmit (outcome : FetchOutcome) (s : ContactState) : ContactState :=
  resolveSubmit outcome (beginSubmit s)

/-- Name attribute of a form control wired to handleChange: the inputs carry
name="name", name="email", name="message" (ContactSection.tsx lines 218, 235,
251). -/
inductive FormField where
  | name
  | email
  | message
deriving DecidableEq, Repr

/-- Read one draft field by its name attribute. -/
def FormData.get (d : FormData) : FormField → String
  | FormField.name => d.name
  | FormField.email => d.email
  | FormField.message => d.message

/-- handleChange (ContactSection.tsx lines 111-118): spread the existing draft
and overwrite the key named by the event target with the target value; status
and feedback are not touched. -/
def handleChange (field : FormField) (value : String) (s : ContactState) : ContactState :=
  { s with formData :=
      match field with
      | FormField.name => { s.formData with name := value }
      | FormField.email => { s.formData with email := value }
      | FormField.message => { s.formData with message := value } }

/-- The submit control is disabled exactly while the status is loading
(ContactSection.tsx line 264). -/
def submitDisabled (s : ContactState) : Bool := s.status = Status.loading

/-- One discrete event of the submission flow as the UI event loop delivers it:
the user activating the submit control, or the outstanding request settling
with a fetch outcome. -/
inductive FlowEvent where
  | submit
  | settle (outcome : FetchOutcome)
deriving DecidableEq, Repr

/-- Component state together with the number of HTTP submission requests in
flight for this form instance. -/
structure FlowState where
  ui : ContactState
  outstanding : Nat
deriving DecidableEq, Repr

/-- Flow state before any event: initial component state, nothing in flight. -/
def initialFlowState : FlowState := { ui := initialContactState, outstanding := 0 }

/-- Event-loop step of the submission flow. Activating a disabled submit
control runs no handler and issues no request; on an enabled control,
handleSubmit starts: the status becomes loading and one request goes out. A
settle event resumes the suspended handleSubmit continuation and retires its
request; with nothing in flight there is no continuation to resume. -/
def flowStep (s : FlowState) : FlowEvent → FlowState
  | FlowEvent.submit =>
      if submitDisabled s.ui then s
      else { ui := beginSubmit s.ui, outstanding := s.outstanding + 1 }
  | FlowEvent.settle outcome =>
      if s.outstanding = 0 then s
      else { ui := resolveSubmit outcome s.ui, outstanding := s.outstanding - 1 }

/-- Run a sequence of flow events from the initial flow state. -/
def runFlow (events : List FlowEvent) : FlowState :=
  events.foldl flowStep initialFlowState

/-- Initial active section of the page (src/app/page.tsx: useState("home")). -/
def initialActiveSection : String := "home"

/-- The setActiveSection write capability handed to every section and to the
LeftNav: a plain overwrite of the single active-section state; the id is not
validated against the known sections. -/
def report (sectionId : String) (_current : String) : String := sectionId

/-- One IntersectionObserver entry as the section callbacks consume it: the id
of the observed section together with the isIntersecting flag delivered when
its visibility crosses the configured threshold. -/
structure VisibilityEntry where
  sectionId : String
  isIntersecting : Bool
deriving DecidableEq, Repr

/-- The observer callback each section registers (for example
ContactSection.tsx lines 57-64): report the section id when the delivered
entry is intersecting, otherwise leave the state alone. -/
def observerCallback (entry : VisibilityEntry) (current : String) : String :=
  if entry.isIntersecting then report entry.sectionId current else current

/-- Deliver a sequence of observer entries to the coordinator, starting from
the initial active section. -/
def processVisibilityEvents (events : List VisibilityEntry) : String :=
  events.foldl (fun current entry => observerCallback entry current) initialActiveSection

/-- Observer threshold each section configures: 0.5 for the hero section with
id "home" (HeroSection threshold: 0.5), 0.3 for the skills, projects and
contact sections (threshold: 0.3 in each). -/
def sectionThreshold (id : String) : ℚ :=
  if id = "home" then (1 : ℚ) / 2 else (3 : ℚ) / 10

/-- Page state the LeftNav action can touch, together with the ids of the
elements present in the document and the current visible fraction of each
section. scrollToSection never reads visibleFraction; the field exists so
that independence from visibility can be stated. -/
structure PageState where
  domIds : List String
  activeSection : String
  isOpen : Bool
  visibleFraction : String → ℚ

/-- Observable side effects of scrollToSection, in order of execution. -/
inductive NavAction where
  | scrollIntoView (id : String)
  | setActiveSection (id : String)
  | closeDrawer
deriving DecidableEq, Repr

/-- scrollToSection (LeftNav.tsx lines 460-472): look the element up by id;
when it is present, request the smooth scroll, set the active section, and
close the drawer, in that order; when it is absent, do nothing and raise no
error. Returns the list of effects in execution order and the new state. -/
def scrollToSection (id : String) (st : PageState) : List NavAction × PageState :=
  if st.domIds.contains id then
    ([NavAction.scrollIntoView id, NavAction.setActiveSection id, NavAction.closeDrawer],
     { st with activeSection := id, isOpen := false })
  else ([], st)

/-- Environment configuration the relay route reads (route.ts lines 30-36);
none models an unset variable. RESEND_API_KEY is not modelled: it does not
steer control flow in the handler, and a rejected provider call is covered by
SendOutcome. -/
structure EnvConfig where
  RESEND_FROM_EMAIL : Option String
  CONTACT_TO_EMAIL : Option String
deriving DecidableEq, Repr

/-- JavaScript falsiness of an optional string: undefined or the empty
string. -/
def falsyStr : Option String → Bool
  | none => true
  | some s => s = ""

/-- TO_EMAIL (route.ts line 36): CONTACT_TO_EMAIL ?? FROM_EMAIL. The nullish
coalescing operator falls back only on undefined, not on the empty string. -/
def EnvConfig.toEmail (env : EnvConfig) : Option String :=
  match env.CONTACT_TO_EMAIL with
  | some v => some v
  | none => env.RESEND_FROM_EMAIL

/-- Payload shape the route reads from the request JSON (route.ts lines
57-61): three optional string fields. -/
structure ContactPayload where
  name : Option String
  email : Option String
  message : Option String
deriving DecidableEq, Repr

/-- The request body as the route consumes it: either it parses as JSON into
the payload shape, or request.json() rejects. -/
inductive RequestBody where
  | json (payload : ContactPayload)
  | unparseable
deriving DecidableEq, Repr

/-- The email the route hands to resend.emails.send (route.ts lines 83-89);
fromAddress and toAddress stand for the from and to properties. -/
structure EmailMessage where
  fromAddress : String
  toAddress : String
  replyTo : String
  subject : String
  text : String
deriving DecidableEq, Repr

/-- Whether the call to resend.emails.send resolves or rejects. -/
inductive SendOutcome where
  | sent
  | threw
deriving DecidableEq, Repr

/-- Body of the JSON responses the route produces: either the object with
ok true, or an object with an error string. -/
inductive RouteBody where
  | okTrue
  | errorBody (message : String)
deriving DecidableEq, Repr

/-- Result of one POST invocation: HTTP status, JSON body, and the emails
whose delivery was attempted, in order. -/
structure PostResult where
  status : Nat
  body : RouteBody
  emailAttempts : List EmailMessage
deriving DecidableEq, Repr

/-- The POST handler (route.ts lines 42-107), with the parse result of the
request body and the behavior of the provider call supplied as parameters.
Step 1 checks the environment before the try block; inside it, an unparseable
body makes request.json() throw straight into the catch; then the trimmed
fields are validated; then the email goes out, and a rejected provider call
also lands in the catch. The getD "" coercions discharge options the guards
established as set. -/
def POST (env : EnvConfig) (body : RequestBody) (send : SendOutcome) : PostResult :=
  if falsyStr env.RESEND_FROM_EMAIL || falsyStr env.toEmail then
    { status := 500,
      body := RouteBody.errorBody "Email settings are incomplete on the server.",
      emailAttempts := [] }
  else
    match body with
    | RequestBody.unparseable =>
        { status := 500,
          body := RouteBody.errorBody "Unable to send message at this time.",
          emailAttempts := [] }
    | RequestBody.json payload =>
        let name := payload.name.map String.trim
        let email := payload.email.map String.trim
        let message := payload.message.map String.trim
        if falsyStr name || falsyStr email || falsyStr message then
          { status := 400,
            body := RouteBody.errorBody "Please provide name, email, and message.",
            emailAttempts := [] }
        else
          let nameV := name.getD ""
          let emailV := email.getD ""
          let messageV := message.getD ""
          let emailMsg : EmailMessage :=
            { fromAddress := env.RESEND_FROM_EMAIL.getD "",
              toAddress := env.toEmail.getD "",
              replyTo := emailV,
              subject := "New portfolio inquiry from " ++ nameV,
              text := "Name: " ++ nameV ++ "\nEmail: " ++ emailV ++ "\n\n" ++ messageV }
          match send with
          | SendOutcome.sent =>
              { status := 200, body := RouteBody.okTrue, emailAttempts := [emailMsg] }
          | SendOutcome.threw =>
              { status := 500,
                body := RouteBody.errorBody "Unable to send message at this time.",
                emailAttempts := [emailMsg] }

/-! Theorems. -/

/-- Draft of the example scenario in the spec. -/
def exampleDraft : FormData :=
  { name := "Ada", email := "ada@example.com", message := "Hello" }

/-- Idle component state holding the example draft. -/
def exampleIdleState : ContactState :=
  { formData := exampleDraft, status := Status.idle, feedbackMessage := none }

/-- The success feedback string exactly as the spec prints it, with an ASCII
apostrophe (codepoint 39); the component source instead uses the right single
quotation mark U+2019 at that position. -/
def specThanksMessage : String :=
  "Thanks for reaching out! I" ++ String.singleton (Char.ofNat 39) ++ "ll respond shortly."

/-- Response with status 200 and body with ok true, as in the example
scenario. -/
def okResponse : HttpResponse :=
  { status := 200, body := some { ok := some true, error := none } }

/-- Response with status 400 carrying the validation error string. -/
def validationErrorResponse : HttpResponse :=
  { status := 400,
    body := some { ok := none, error := some "Please provide name, email, and message." } }

/-- C1, counterexample: at the example scenario (populated draft, response with
status 200 and body with ok true) the feedback the code sets is the U+2019
variant of the thanks string, so it does not equal the string the claim
states, whose apostrophe is ASCII. -/
theorem success_feedback_differs_from_spec_string :
    (handleSubmit (FetchOutcome.resp okResponse)
        exampleIdleState).feedbackMessage ≠ some specThanksMessage ∧
    (handleSubmit (FetchOutcome.resp okResponse)
        exampleIdleState).feedbackMessage = some thanksMessage := by
  decide

/-- C1 (amended): for a populated draft and a response with status 200 and
body with ok true, the flow passes from idle through loading to success, the
feedback equals the thanks message as spelled in the source (apostrophe
U+2019), and the draft is reset to three empty fields. -/
theorem submit_success_flow (s : ContactState) (r : HttpResponse)
    (hidle : s.status = Status.idle)
    (_hname : s.formData.name ≠ "") (_hemail : s.formData.email ≠ "")
    (_hmessage : s.formData.message ≠ "")
    (hstatus : r.status = 200)
    (_hbody : r.body = some { ok := some true, error := none }) :
    s.status = Status.idle ∧
    (beginSubmit s).status = Status.loading ∧
    (handleSubmit (FetchOutcome.resp r) s).status = Status.success ∧
    (handleSubmit (FetchOutcome.resp r) s).feedbackMessage = some thanksMessage ∧
    (handleSubmit (FetchOutcome.resp r) s).formData =
      { name := "", email := "", message := "" } := by
  have hok : r.ok = true := by unfold HttpResponse.ok; rw [hstatus]; rfl
  refine ⟨hidle, rfl, ?_, ?_, ?_⟩ <;>
    simp [handleSubmit, resolveSubmit, beginSubmit, hok]

/-- Witness for submit_success_flow at the example scenario. -/
theorem submit_success_flow_witness :
    exampleIdleState.status = Status.idle ∧
    (beginSubmit exampleIdleState).status = Status.loading ∧
    (handleSubmit (FetchOutcome.resp okResponse) exampleIdleState).status = Status.success ∧
    (handleSubmit (FetchOutcome.resp okResponse) exampleIdleState).feedbackMessage =
      some thanksMessage ∧
    (handleSubmit (FetchOutcome.resp okResponse) exampleIdleState).formData =
      { name := "", email := "", message := "" } :=
  submit_success_flow exampleIdleState okResponse
    rfl (by decide) (by decide) (by decide) rfl rfl

/-- C4: for any starting state, a response with status 400 whose body carries
exactly the validation error string makes the flow end in the error status
with that exact string as feedback and the draft untouched. -/
theorem submit_validation_error_flow (s : ContactState) (r : HttpResponse)
    (hstatus : r.status = 400)
    (hbody : r.body =
      some { ok := none, error := some "Please provide name, email, and message." }) :
    (handleSubmit (FetchOutcome.resp r) s).status = Status.error ∧
    (handleSubmit (FetchOutcome.resp r) s).feedbackMessage =
      some "Please provide name, email, and message." ∧
    (handleSubmit (FetchOutcome.resp r) s).formData = s.formData := by
  have hok : r.ok = false := by unfold HttpResponse.ok; rw [hstatus]; rfl
  refine ⟨?_, ?_, ?_⟩ <;>
    simp [handleSubmit, resolveSubmit, beginSubmit, hok, hbody]

/-- Witness for submit_validation_error_flow at the example draft. -/
theorem submit_validation_error_flow_witness :
    (handleSubmit (FetchOutcome.resp validationErrorResponse)
        exampleIdleState).status = Status.error ∧
    (handleSubmit (FetchOutcome.resp validationErrorResponse)
        exampleIdleState).feedbackMessage =
      some "Please provide name, email, and message." ∧
    (handleSubmit (FetchOutcome.resp validationErrorResponse)
        exampleIdleState).formData = exampleIdleState.formData :=
  submit_validation_error_flow exampleIdleState validationErrorResponse rfl rfl

/-- C5, counterexample: a connection failure rejects the fetch with a
TypeError, an Error instance with message "Failed to fetch"; the catch block
then surfaces that transport-level message rather than the generic fallback,
so the claim that the feedback is the generic fallback fails here. The flow
does end in the error status with the draft untouched. -/
theorem transport_error_feedback_not_generic :
    (handleSubmit (FetchOutcome.thrown { isError := true, message := "Failed to fetch" })
        exampleIdleState).feedbackMessage ≠ some genericFailureMessage ∧
    (handleSubmit (FetchOutcome.thrown { isError := true, message := "Failed to fetch" })
        exampleIdleState).feedbackMessage = some "Failed to fetch" ∧
    (handleSubmit (FetchOutcome.thrown { isError := true, message := "Failed to fetch" })
        exampleIdleState).status = Status.error ∧
    (handleSubmit (FetchOutcome.thrown { isError := true, message := "Failed to fetch" })
        exampleIdleState).formData = exampleDraft := by
  decide

/-- C5 (amended): for any thrown value the flow ends in the error status with
the draft untouched; the feedback is the message of the thrown value when it
is an Error instance (so transport-level text such as "Failed to fetch" is
surfaced), and the generic fallback only when it is not. -/
theorem submit_transport_error_flow (s : ContactState) (e : JsThrown) :
    (handleSubmit (FetchOutcome.thrown e) s).status = Status.error ∧
    (handleSubmit (FetchOutcome.thrown e) s).formData = s.formData ∧
    (handleSubmit (FetchOutcome.thrown e) s).feedbackMessage =
      some (if e.isError then e.message else genericFailureMessage) :=
  ⟨rfl, rfl, rfl⟩

/-- C10: a change event naming one field sets exactly that field to the event
value and leaves every other field, the status and the feedback unchanged. -/
theorem change_updates_single_field (field other : FormField) (value : String)
    (s : ContactState) (hne : other ≠ field) :
    ((handleChange field value s).formData).get field = value ∧
    ((handleChange field value s).formData).get other = s.formData.get other ∧
    (handleChange field value s).status = s.status ∧
    (handleChange field value s).feedbackMessage = s.feedbackMessage := by
  refine ⟨?_, ?_, rfl, rfl⟩
  · cases field <;> rfl
  · cases field <;> cases other <;> first | rfl | exact absurd rfl hne

/-- Witness for change_updates_single_field: updating the email field of the
example state. -/
theorem change_updates_single_field_witness :
    ((handleChange FormField.email "new@example.com" exampleIdleState).formData).get
        FormField.email = "new@example.com" ∧
    ((handleChange FormField.email "new@example.com" exampleIdleState).formData).get
        FormField.name = exampleIdleState.formData.get FormField.name ∧
    (handleChange FormField.email "new@example.com" exampleIdleState).status =
      exampleIdleState.status ∧
    (handleChange FormField.email "new@example.com" exampleIdleState).feedbackMessage =
      exampleIdleState.feedbackMessage :=
  change_updates_single_field FormField.email FormField.name "new@example.com"
    exampleIdleState (by decide)

/-- The resolved submission never leaves the status at loading: every branch
of resolveSubmit sets success or error. -/
theorem resolveSubmit_status_ne_loading (outcome : FetchOutcome) (s : ContactState) :
    (resolveSubmit outcome s).status ≠ Status.loading := by
  cases outcome with
  | resp r => by_cases h : r.ok <;> simp [resolveSubmit, h]
  | thrown e => simp [resolveSubmit]

/-- Invariant tying requests in flight to the status: exactly one request is
outstanding while the status is loading, none otherwise. -/
def flowInv (s : FlowState) : Prop :=
  s.outstanding = if s.ui.status = Status.loading then 1 else 0

/-- Every flow event preserves the in-flight invariant. -/
theorem flowStep_inv (s : FlowState) (e : FlowEvent) (h : flowInv s) :
    flowInv (flowStep s e) := by
  cases e with
  | submit =>
    by_cases hd : submitDisabled s.ui
    · simpa [flowStep, hd] using h
    · have hs : ¬ s.ui.status = Status.loading := by
        simpa [submitDisabled] using hd
      have h0 : s.outstanding = 0 := by simpa [flowInv, hs] using h
      simp [flowInv, flowStep, hd, beginSubmit, h0]
  | settle outcome =>
    by_cases h0 : s.outstanding = 0
    · simpa [flowStep, h0] using h
    · have hl : s.ui.status = Status.loading := by
        by_contra hc
        simp [flowInv, hc] at h
        exact h0 h
      have h1 : s.outstanding = 1 := by simpa [flowInv, hl] using h
      have hnl := resolveSubmit_status_ne_loading outcome s.ui
      simp [flowInv, flowStep, h0, h1, hnl]

/-- The in-flight invariant holds along any run from an invariant state. -/
theorem foldl_flowStep_inv (events : List FlowEvent) (s : FlowState) (h : flowInv s) :
    flowInv (events.foldl flowStep s) := by
  induction events generalizing s with
  | nil => exact h
  | cons e t ih => exact ih (flowStep s e) (flowStep_inv s e h)

/-- The in-flight invariant holds after any event sequence from the start. -/
theorem runFlow_inv (events : List FlowEvent) : flowInv (runFlow events) :=
  foldl_flowStep_inv events initialFlowState
    (by simp [flowInv, initialFlowState, initialContactState])

/-- C3: along every event sequence at most one submission request is
outstanding, and a submit delivered while the status is loading leaves the
flow state unchanged: the control is disabled, so no handler runs and no
second request is issued. -/
theorem no_second_request_while_sending :
    (∀ events : List FlowEvent, (runFlow events).outstanding ≤ 1) ∧
    (∀ s : FlowState, s.ui.status = Status.loading → flowStep s FlowEvent.submit = s) := by
  constructor
  · intro events
    have h := runFlow_inv events
    unfold flowInv at h
    rw [h]
    split <;> simp
  · intro s hs
    simp [flowStep, submitDisabled, hs]

/-- Flow state in the middle of a submission: loading with one request out. -/
def loadingFlowState : FlowState :=
  { ui := { formData := exampleDraft, status := Status.loading, feedbackMessage := none },
    outstanding := 1 }

/-- Witness for no_second_request_while_sending: two submits in a row keep at
most one request out, and a submit in the loading state changes nothing. -/
theorem no_second_request_while_sending_witness :
    (runFlow [FlowEvent.submit, FlowEvent.submit]).outstanding ≤ 1 ∧
    flowStep loadingFlowState FlowEvent.submit = loadingFlowState :=
  ⟨no_second_request_while_sending.1 [FlowEvent.submit, FlowEvent.submit],
   no_second_request_while_sending.2 loadingFlowState rfl⟩

/-- C2: delivering any nonempty sequence of threshold-crossing entries (all
intersecting) leaves the coordinator at the section id of the most recent
entry, and each report unconditionally overwrites the current value, whatever
id it carries. -/
theorem active_section_last_write_wins :
    (∀ (events : List VisibilityEntry) (h : events ≠ []),
        (∀ e ∈ events, e.isIntersecting = true) →
        processVisibilityEvents events = (events.getLast h).sectionId) ∧
    (∀ sectionId current : String, report sectionId current = sectionId) := by
  constructor
  · intro events h hall
    obtain hnil | ⟨L, b, rfl⟩ := events.eq_nil_or_concat'
    · exact absurd hnil h
    · have hb : b.isIntersecting = true := hall b (by simp)
      simp [processVisibilityEvents, List.foldl_append, observerCallback, report, hb,
        List.getLast_append]
  · intro sectionId current
    rfl

/-- Witness for active_section_last_write_wins: two crossings ending at
skills, and one direct report. -/
theorem active_section_last_write_wins_witness :
    processVisibilityEvents
        [{ sectionId := "home", isIntersecting := true },
         { sectionId := "skills", isIntersecting := true }] = "skills" ∧
    report "projects" "home" = "projects" := by
  constructor
  · have h := active_section_last_write_wins.1
      [{ sectionId := "home", isIntersecting := true },
       { sectionId := "skills", isIntersecting := true }] (by decide) (by decide)
    simpa using h
  · exact active_section_last_write_wins.2 "projects" "home"

/-- C7: when the id names an element present in the page, the navigation
action emits the scroll request, the active-section write and the drawer
close in that order, sets the active section to the id, and closes the
drawer; the hypothesis that the visible fraction of the section is below its
threshold is never consulted, so the write bypasses the visibility tracker. -/
theorem nav_click_sets_active_section (st : PageState) (id : String)
    (hmem : st.domIds.contains id = true)
    (_hbelow : st.visibleFraction id < sectionThreshold id) :
    (scrollToSection id st).1 =
      [NavAction.scrollIntoView id, NavAction.setActiveSection id, NavAction.closeDrawer] ∧
    (scrollToSection id st).2.activeSection = id ∧
    (scrollToSection id st).2.isOpen = false := by
  have hmem2 : id ∈ st.domIds := by simpa using hmem
  refine ⟨?_, ?_, ?_⟩ <;> simp [scrollToSection, hmem2]

/-- Page state with the four sections mounted, the drawer open, and every
section currently reported as not visible at all. -/
def examplePageState : PageState :=
  { domIds := ["home", "skills", "projects", "contact"],
    activeSection := "home", isOpen := true, visibleFraction := fun _ => 0 }

/-- Witness for nav_click_sets_active_section: navigating to contact while its
visible fraction 0 is below its threshold 0.3. -/
theorem nav_click_sets_active_section_witness :
    (scrollToSection "contact" examplePageState).1 =
      [NavAction.scrollIntoView "contact", NavAction.setActiveSection "contact",
        NavAction.closeDrawer] ∧
    (scrollToSection "contact" examplePageState).2.activeSection = "contact" ∧
    (scrollToSection "contact" examplePageState).2.isOpen = false :=
  nav_click_sets_active_section examplePageState "contact" (by decide)
    (by
      simp only [examplePageState, sectionThreshold]
      rw [if_neg (by decide : ¬ ("contact" : String) = "home")]
      norm_num)

/-- C8: when no element with the given id is present, the navigation action is
a no-op: it emits no effect and returns the state unchanged (and, being a
total function, surfaces no error). -/
theorem nav_click_missing_target_noop (st : PageState) (id : String)
    (hmem : st.domIds.contains id = false) :
    scrollToSection id st = ([], st) := by
  have hmem2 : id ∉ st.domIds := by simpa using hmem
  simp [scrollToSection, hmem2]

/-- Witness for nav_click_missing_target_noop: a section id absent from the
page. -/
theorem nav_click_missing_target_noop_witness :
    scrollToSection "blog" examplePageState = ([], examplePageState) :=
  nav_click_missing_target_noop examplePageState "blog" (by decide)

/-- C6: with the sending and recipient identities configured, a parsed body
with any field absent or blank after trimming gets the 400 response with the
validation error string, and no email delivery is attempted. -/
theorem post_missing_field_rejected (env : EnvConfig) (payload : ContactPayload)
    (send : SendOutcome)
    (hfrom : falsyStr env.RESEND_FROM_EMAIL = false)
    (hto : falsyStr env.toEmail = false)
    (hfield : falsyStr (payload.name.map String.trim) = true ∨
              falsyStr (payload.email.map String.trim) = true ∨
              falsyStr (payload.message.map String.trim) = true) :
    POST env (RequestBody.json payload) send =
      { status := 400,
        body := RouteBody.errorBody "Please provide name, email, and message.",
        emailAttempts := [] } := by
  rcases hfield with h | h | h <;> simp [POST, hfrom, hto, h]

/-- Environment with a sending identity and no explicit recipient, so the
recipient falls back to the sender. -/
def exampleEnv : EnvConfig :=
  { RESEND_FROM_EMAIL := some "site@example.com", CONTACT_TO_EMAIL := none }

/-- Witness for post_missing_field_rejected: an absent name field. -/
theorem post_missing_field_rejected_witness :
    POST exampleEnv
        (RequestBody.json
          { name := none, email := some "ada@example.com", message := some "Hello" })
        SendOutcome.sent =
      { status := 400,
        body := RouteBody.errorBody "Please provide name, email, and message.",
        emailAttempts := [] } :=
  post_missing_field_rejected exampleEnv
    { name := none, email := some "ada@example.com", message := some "Hello" }
    SendOutcome.sent (by decide) (by decide) (Or.inl rfl)

/-- C9: with the identities configured, an unparseable request body makes
request.json() throw into the catch-all branch: status 500 with the generic
error body, not 400, and no email delivery is attempted. -/
theorem post_unparseable_body_server_error (env : EnvConfig) (send : SendOutcome)
    (hfrom : falsyStr env.RESEND_FROM_EMAIL = false)
    (hto : falsyStr env.toEmail = false) :
    POST env RequestBody.unparseable send =
      { status := 500,
        body := RouteBody.errorBody "Unable to send message at this time.",
        emailAttempts := [] } ∧
    (POST env RequestBody.unparseable send).status ≠ 400 := by
  refine ⟨?_, ?_⟩ <;> simp [POST, hfrom, hto]

/-- Witness for post_unparseable_body_server_error at the example
environment. -/
theorem post_unparseable_body_server_error_witness :
    POST exampleEnv RequestBody.unparseable SendOutcome.sent =
      { status := 500,
        body := RouteBody.errorBody "Unable to send message at this time.",
        emailAttempts := [] } ∧
    (POST exampleEnv RequestBody.unparseable SendOutcome.sent).status ≠ 400 :=
  post_unparseable_body_server_error exampleEnv SendOutcome.sent (by decide) (by decide)

end PersonalWeb
